import Mathlib

/-
Verification of the service messaging runtime of the octue SDK
(src/octue/cloud/pub_sub/service.py and src/octue/resources/child.py)
against its natural-language specification.

The Python code is shallowly embedded: pure control flow becomes Lean
functions, the pub/sub transport becomes an explicit environment of
operation results, exceptions become an `Except`/`Option PyErr` result,
and the wall clock becomes explicit elapsed-time values attached to the
transport operations.
-/

set_option autoImplicit false

namespace Octue

/-- Python values: the fragment needed by the embedded code (service ids,
question payload values, analysis outputs and exception arguments). -/
inductive PyVal where
  | str (s : String)
  | int (n : Int)
  deriving DecidableEq, Repr

/-- Google Cloud error classes as used by `google.api_core.exceptions`. -/
inductive TransportErr where
  | notFound
  | aborted
  | deadlineExceeded
  | internalServerError
  | resourceExhausted
  | serviceUnavailable
  | unknown
  | cancelled
  | permissionDenied
  | invalidArgument
  | alreadyExists
  | failedPrecondition
  deriving DecidableEq, Repr

/-- Python exceptions raised by the embedded code paths. -/
inductive PyErr where
  | typeError (msg : String)
  | valueError (msg : String)
  | indexError
  | keyError (key : String)
  | timeoutError (elapsed : Rat)
  | transport (e : TransportErr)
  | remote (ty : String) (msg : String) (tb : List String)
  | jsonDecodeError
  deriving DecidableEq, Repr

/-- A module attribute as inspected by `create_exceptions_mapping`: a class
that is a subclass of `BaseException`, some other class, or a non-class
value (for which Python's `issubclass` raises `TypeError`, which the source
catches and skips). -/
inductive PyAttr where
  | excClass
  | otherClass
  | nonClass
  deriving DecidableEq, Repr

/-- Python dict insertion: a later binding for an existing key overrides the
earlier one in place; a new key is appended. -/
def dictInsert (d : List (String × PyAttr)) (k : String) (v : PyAttr) :
    List (String × PyAttr) :=
  if d.any (fun p => p.1 == k) then
    d.map (fun p => if p.1 == k then (k, v) else p)
  else
    d ++ [(k, v)]

/-- service.py lines 34-47: build one dict from all sources (later sources
override earlier ones) and keep exactly the entries that are subclasses of
`BaseException`; non-class values make `issubclass` raise `TypeError`,
which is caught and skipped. -/
def create_exceptions_mapping (sources : List (List (String × PyAttr))) :
    List (String × PyAttr) :=
  let candidates :=
    sources.foldl (fun d source => source.foldl (fun d kv => dictInsert d kv.1 kv.2) d) []
  candidates.filter (fun kv => kv.2 == PyAttr.excClass)

/-- The relevant contents of Python's `__builtins__` (external module):
the standard built-in exception classes plus non-exception attributes. -/
def builtinsModule : List (String × PyAttr) :=
  [("ValueError", .excClass), ("TypeError", .excClass), ("KeyError", .excClass),
   ("IndexError", .excClass), ("FileNotFoundError", .excClass), ("OSError", .excClass),
   ("Exception", .excClass), ("BaseException", .excClass), ("TimeoutError", .excClass),
   ("RuntimeError", .excClass), ("print", .nonClass), ("len", .nonClass),
   ("dict", .otherClass), ("list", .otherClass)]

/-- The relevant contents of `twined.exceptions` (external module). -/
def twinedExceptionsModule : List (String × PyAttr) :=
  [("TwineException", .excClass), ("InvalidManifestContents", .excClass),
   ("InvalidValuesContents", .excClass), ("logger", .nonClass)]

/-- The contents of `octue.exceptions` (src/octue/exceptions.py): every
class defined there is an `Exception` subclass. -/
def octueExceptionsModule : List (String × PyAttr) :=
  [("OctueSDKException", .excClass), ("InvalidInputException", .excClass),
   ("FileNotFoundException", .excClass), ("FolderNotFoundException", .excClass),
   ("ManifestNotFoundException", .excClass), ("InvalidManifestException", .excClass),
   ("InvalidManifestTypeException", .excClass), ("InvalidOctueFileTypeException", .excClass),
   ("InvalidFilePointerException", .excClass), ("NotImplementedYetException", .excClass),
   ("UnexpectedNumberOfResultsException", .excClass), ("InvalidTagException", .excClass)]

/-- service.py lines 50-52: the process-wide registry from exception type
name to exception class. -/
def EXCEPTIONS_MAPPING : List (String × PyAttr) :=
  create_exceptions_mapping [builtinsModule, twinedExceptionsModule, octueExceptionsModule]

/-- Python dict lookup by key, returning the stored attribute if present. -/
def mappingLookup (m : List (String × PyAttr)) (k : String) : Option PyAttr :=
  (m.find? (fun p => p.1 == k)).map (fun p => p.2)

/-! ## Retry policy (service.py lines 55-75) -/

/-- The parameters of a `google.api_core.retry.Retry` object. -/
structure Retry where
  initial : Rat
  multiplier : Rat
  maximum : Rat
  deadline : Rat
  predicate : TransportErr → Bool

/-- Modelled from the external library: `google.api_core.retry.if_exception_type`
builds a predicate that holds exactly on the listed error classes. -/
def if_exception_type (classes : List TransportErr) : TransportErr → Bool :=
  fun e => classes.contains e

/-- The eight transient error classes listed in `create_custom_retry`
(service.py lines 66-73), in source order. -/
def transientErrors : List TransportErr :=
  [.notFound, .aborted, .deadlineExceeded, .internalServerError,
   .resourceExhausted, .serviceUnavailable, .unknown, .cancelled]

/-- service.py lines 55-75: the custom retry object. `maximum` and `deadline`
are set by the source; `initial = 1` and `multiplier = 2` are the library
defaults, which the source does not override. -/
def create_custom_retry (timeout : Rat) : Retry :=
  { initial := 1
    multiplier := 2
    maximum := timeout / 4
    deadline := timeout
    predicate := if_exception_type transientErrors }

/-- Modelled from the spec: the per-attempt backoff sleep is exponential in
the attempt number and capped at `maximum`. -/
def Retry.sleepAt (r : Retry) (n : Nat) : Rat :=
  min (r.initial * r.multiplier ^ n) r.maximum

/-- Outcome of the modelled retry loop, carrying the cumulative wait. -/
inductive RetryOutcome where
  | ok (totalWait : Rat)
  | fatal (e : TransportErr) (totalWait : Rat)
  | gaveUp (e : TransportErr) (totalWait : Rat)
  | fuelOut
  deriving DecidableEq, Repr

/-- Modelled from the spec: the retry loop run against a sequence of call
outcomes (`none` = the call succeeded, `some e` = it failed with error
class `e`). A non-retried error class surfaces immediately; a transient
error stops retrying once the cumulative wait has reached the deadline,
and otherwise sleeps the capped exponential backoff and tries again. -/
def retryLoop (r : Retry) : Nat → Rat → List (Option TransportErr) → RetryOutcome
  | _, _, [] => .fuelOut
  | _, cum, none :: _ => .ok cum
  | n, cum, some e :: rest =>
      if r.predicate e = false then .fatal e cum
      else if r.deadline ≤ cum then .gaveUp e cum
      else retryLoop r (n + 1) (cum + r.sleepAt n) rest

/-! ## The server side: `Service.answer` and its subscriber callback -/

/-- service.py lines 26-27. -/
def OCTUE_NAMESPACE : String := "octue.services"

/-- service.py line 27. -/
def ANSWERS_NAMESPACE : String := "answers"

/-- service.py lines 149-151: the reply topic name constructed by `answer`,
`".".join((self.id, ANSWERS_NAMESPACE, question_uuid))`. -/
def replyTopicName (serviceId questionUuid : String) : String :=
  String.intercalate "." [serviceId, ANSWERS_NAMESPACE, questionUuid]

/-- A message payload on a reply channel. The source only ever produces the
two terminal forms; `deliveryAck` is the intermediate kind named by the
spec, included so that its absence can be stated. -/
inductive AnswerPayload where
  | success (output_values : PyVal) (output_manifest : Option String)
  | failure (exception_type : String) (exception_message : String) (traceback : List String)
  | deliveryAck
  deriving DecidableEq, Repr

/-- The outcome of invoking the user run function: an analysis with output
values and an optional (already serialised) output manifest, or a raised
exception with its type name, `args` tuple and traceback frames. -/
inductive RunResult where
  | ok (output_values : PyVal) (output_manifest : Option String)
  | raises (ty : String) (args : List PyVal) (tb : List String)
  deriving DecidableEq, Repr

/-- Observable events of one `answer` invocation. -/
inductive AnswerEvent where
  | invokedRun
  | published (topic : String) (payload : AnswerPayload)
  deriving DecidableEq, Repr

/-- service.py lines 144-189 (`Service.answer`): construct the reply topic,
invoke the run function, and publish the terminal result envelope; on an
exception, build `exception_message = "Error in " + repr(self) + ": " +
exception.args[0]` and publish the terminal error envelope.  The string
concatenation raises `IndexError` when `args` is empty and `TypeError` when
`args[0]` is not a string; nothing in the method catches either, so they
propagate (second component `some e`). -/
def answer (serviceId serviceRepr questionUuid : String) (run : RunResult) :
    List AnswerEvent × Option PyErr :=
  let topic := replyTopicName serviceId questionUuid
  match run with
  | .ok ov om => ([.invokedRun, .published topic (.success ov om)], none)
  | .raises ty args tb =>
      match args with
      | [] => ([.invokedRun], some .indexError)
      | .str s :: _ =>
          ([.invokedRun,
            .published topic (.failure ty ("Error in " ++ serviceRepr ++ ": " ++ s) tb)],
           none)
      | .int _ :: _ => ([.invokedRun], some (.typeError "can only concatenate str to str"))

/-- Recogniser for a published delivery-acknowledgement message. -/
def isDeliveryAckPublish : AnswerEvent → Bool
  | .published _ .deliveryAck => true
  | _ => false

/-- The decoded question payload (`json.loads` of the question data). -/
structure QuestionData where
  input_values : PyVal
  input_manifest : Option String
  deriving DecidableEq, Repr

/-- A question as received by the subscriber callback: `decodedData = none`
models a payload that fails JSON decoding, and `attributes` is the message
attribute map. -/
structure IncomingQuestion where
  decodedData : Option QuestionData
  attributes : List (String × String)
  deriving DecidableEq, Repr

/-- Lookup of a message attribute by key. -/
def attrLookup (attrs : List (String × String)) (k : String) : Option String :=
  (attrs.find? (fun p => p.1 == k)).map (fun p => p.2)

/-- Observable events of one subscriber-callback invocation. -/
inductive CallbackEvent where
  | decodedPayload
  | readQuestionUuid (u : String)
  | acked
  | fromAnswer (e : AnswerEvent)
  deriving DecidableEq, Repr

/-- service.py lines 136-142 (`Service.receive_question_then_answer`):
decode the payload, read the `question_uuid` attribute, acknowledge the
message on the transport, then answer.  A decode failure or a missing
attribute raises before the acknowledgement is reached. -/
def receive_question_then_answer (serviceId serviceRepr : String)
    (q : IncomingQuestion) (run : RunResult) : List CallbackEvent × Option PyErr :=
  match q.decodedData with
  | none => ([], some .jsonDecodeError)
  | some _ =>
      match attrLookup q.attributes "question_uuid" with
      | none => ([.decodedPayload], some (.keyError "question_uuid"))
      | some u =>
          let a := answer serviceId serviceRepr u run
          ([.decodedPayload, .readQuestionUuid u, .acked] ++ a.1.map .fromAnswer, a.2)

/-! ## The asker side: `Service.wait_for_answer` (service.py lines 235-294) -/

/-- The answer dictionary returned on the success path. -/
structure AnswerDict where
  output_values : PyVal
  output_manifest : Option String
  deriving DecidableEq, Repr

/-- service.py lines 282-294: process the terminal message after the
subscription has been torn down.  An error envelope is reconstructed
through `EXCEPTIONS_MAPPING[data["exception_type"]]`; a type name missing
from the registry is a plain dict-lookup failure, `KeyError`.  A
`deliveryAck`-style empty payload would fail `json.loads`. -/
def processTerminalMessage (payload : AnswerPayload) : Except PyErr AnswerDict :=
  match payload with
  | .failure ty msg tb =>
      match mappingLookup EXCEPTIONS_MAPPING ty with
      | some _ => .error (.remote ty msg tb)
      | none => .error (.keyError ty)
  | .success ov om => .ok { output_values := ov, output_manifest := om }
  | .deliveryAck => .error .jsonDecodeError

/-- The result of one transport pull: the pull call itself raised, or it
returned with at most one received message. -/
inductive PullRes where
  | raised (e : TransportErr)
  | got (msg : Option AnswerPayload)
  deriving DecidableEq, Repr

/-- The transport environment one `wait_for_answer` call runs against:
the sequence of pull results, each paired with the wall-clock time elapsed
since entry when it returns, and whether the acknowledge and the two delete
operations fail (`none` = the operation succeeds). -/
structure WfaEnv where
  pulls : List (PullRes × Rat)
  ackErr : Option TransportErr
  deleteSubErr : Option TransportErr
  deleteTopicErr : Option TransportErr
  deriving DecidableEq, Repr

/-- How the pull loop (lines 251-270) is left. -/
inductive LoopExit where
  | gotAnswer (a : AnswerPayload)
  | pendingErr (e : PyErr)
  | fuelOut
  deriving DecidableEq, Repr

/-- The pull loop of `wait_for_answer`: pull until a message arrives; on an
empty pull, raise `TimeoutError` if the elapsed time exceeds `timeout`,
else pull again; a pull that raises leaves the loop with that error
pending. -/
def wfaLoop (timeout : Rat) : List (PullRes × Rat) → LoopExit
  | [] => .fuelOut
  | (.raised e, _) :: _ => .pendingErr (.transport e)
  | (.got none, t) :: rest =>
      if timeout < t then .pendingErr (.timeoutError t) else wfaLoop timeout rest
  | (.got (some a), _) :: _ => .gotAnswer a

/-- Resource events of one `wait_for_answer` call. -/
inductive WfaEvent where
  | acked
  | deletedSubscription
  | deletedTopic
  deriving DecidableEq, Repr

/-- The `finally` block (lines 272-280): acknowledge the received message
(the `UnboundLocalError` raised when no message was ever assigned is
swallowed), then delete the subscription, then delete its topic.  An
exception raised inside the block replaces any pending exception and skips
the remaining statements, exactly as in Python. -/
def wfaFinally (env : WfaEnv) (received : Bool) : List WfaEvent × Option TransportErr :=
  if received then
    match env.ackErr with
    | some e => ([], some e)
    | none =>
        match env.deleteSubErr with
        | some e => ([.acked], some e)
        | none =>
            match env.deleteTopicErr with
            | some e => ([.acked, .deletedSubscription], some e)
            | none => ([.acked, .deletedSubscription, .deletedTopic], none)
  else
    match env.deleteSubErr with
    | some e => ([], some e)
    | none =>
        match env.deleteTopicErr with
        | some e => ([.deletedSubscription], some e)
        | none => ([.deletedSubscription, .deletedTopic], none)

/-- The overall result of `wait_for_answer`. -/
inductive WfaResult where
  | ok (a : AnswerDict)
  | raised (e : PyErr)
  | fuelOut
  deriving DecidableEq, Repr

/-- service.py lines 235-294 (`Service.wait_for_answer`): run the pull loop,
run the `finally` block, and - when the loop obtained a message and the
`finally` block completed - decode the terminal message, reconstructing and
raising the remote exception for an error envelope. -/
def wait_for_answer (env : WfaEnv) (timeout : Rat) : List WfaEvent × WfaResult :=
  match wfaLoop timeout env.pulls with
  | .fuelOut => ([], .fuelOut)
  | .gotAnswer a =>
      match wfaFinally env true with
      | (ev, some e) => (ev, .raised (.transport e))
      | (ev, none) =>
          match processTerminalMessage a with
          | .ok d => (ev, .ok d)
          | .error e => (ev, .raised e)
  | .pendingErr pe =>
      match wfaFinally env false with
      | (ev, some e) => (ev, .raised (.transport e))
      | (ev, none) => (ev, .raised pe)

/-- An environment in which every pull returns empty at the given elapsed
times and no transport operation fails: no message ever arrives. -/
def noMessageEnv (times : List Rat) : WfaEnv :=
  { pulls := times.map (fun t => (.got none, t))
    ackErr := none
    deleteSubErr := none
    deleteTopicErr := none }

/-! ## The asker side: `Service.ask` correlation id (service.py lines 191-233)
and `Service` construction (lines 93-107) -/

/-- `n % 10` printed as a character. -/
def digitChar (k : Nat) : Char := Char.ofNat (48 + k)

/-- Decimal printing with explicit fuel (the fuel `n + 1` always suffices). -/
def decStrAux : Nat → Nat → List Char → List Char
  | 0, _, acc => acc
  | fuel + 1, n, acc =>
      let acc2 := digitChar (n % 10) :: acc
      if n < 10 then acc2 else decStrAux fuel (n / 10) acc2

/-- Python `str` of a non-negative int: its decimal digits. -/
def decStr (n : Nat) : List Char := decStrAux (n + 1) n []

/-- service.py line 208: `question_uuid = str(int(uuid.uuid4()))`.  The
fresh uuid4 value is modelled by its 128-bit integer value `u`. -/
def askQuestionUuid (u : Nat) : List Char := decStr u

/-- service.py line 210: the reply-channel name
`".".join((service_id, ANSWERS_NAMESPACE, question_uuid))`. -/
def responseChannelName (serviceId : String) (u : Nat) : String :=
  String.intercalate "." [serviceId, ANSWERS_NAMESPACE, String.mk (askQuestionUuid u)]

/-- A lowercase hexadecimal digit, as produced by Python's uuid printing. -/
def isHexChar (c : Char) : Bool :=
  c.isDigit || (97 ≤ c.toNat && c.toNat ≤ 102)

/-- Canonical (RFC 4122 textual) UUID string: 36 characters, hyphens at
positions 8, 13, 18 and 23, lowercase hex digits everywhere else. -/
def isUuidStr (cs : List Char) : Bool :=
  cs.length == 36 &&
  (List.range 36).all (fun i =>
    if i == 8 || i == 13 || i == 18 || i == 23 then cs.getD i ' ' == '-'
    else isHexChar (cs.getD i ' '))

/-- A hex digit character (lowercase letters), as printed by Python. -/
def hexDigitChar (k : Nat) : Char :=
  if k < 10 then Char.ofNat (48 + k) else Char.ofNat (87 + k)

/-- Fixed-width hexadecimal printing. -/
def hexAux : Nat → Nat → List Char → List Char
  | 0, _, acc => acc
  | w + 1, n, acc => hexAux w (n / 16) (hexDigitChar (n % 16) :: acc)

/-- The 32 hex digits of a 128-bit value. -/
def hex32 (u : Nat) : List Char := hexAux 32 u []

/-- Python `str(uuid.uuid4())`: the canonical hyphenated 8-4-4-4-12 form of
the 128-bit value `u`. -/
def uuidCanonical (u : Nat) : String :=
  let h := hex32 u
  String.mk (h.take 8 ++ '-' :: ((h.drop 8).take 4) ++ '-' :: ((h.drop 12).take 4)
    ++ '-' :: ((h.drop 16).take 4) ++ '-' :: (h.drop 20))

/-- Python truthiness of the modelled values: empty strings and zero are
falsy. -/
def pyFalsy : PyVal → Bool
  | .str s => s.isEmpty
  | .int n => n == 0

/-- service.py lines 93-99 (`Service.__init__`): a `None` id becomes
`str(uuid.uuid4())` (the fresh uuid4 value is modelled by `freshUuid`); a
falsy id raises `ValueError`; any other id - string or not - is stored
verbatim. -/
def serviceInit (freshUuid : Nat) (service_id : Option PyVal) : Except PyErr PyVal :=
  match service_id with
  | none => .ok (.str (uuidCanonical freshUuid))
  | some v =>
      if pyFalsy v then
        .error (.valueError "service_id should be None or a non-falsey value")
      else .ok v

/-! ## `Child.ask` (src/octue/resources/child.py lines 24-44) -/

/-- `Service.ask` (service.py line 191) declares the positional parameters
`service_id`, `input_values`, `input_manifest` - at most 3. -/
def serviceAskParamMax : Nat := 3

/-- `input_manifest` has a default, so at least 2 positional arguments are
required. -/
def serviceAskParamMin : Nat := 2

/-- child.py line 36 passes `self.id, input_values, input_manifest,
subscribe_to_logs` - 4 positional arguments. -/
def childAskPositionalArgs : Nat := 4

/-- Observable events of one `Child.ask` call. -/
inductive ChildEvent where
  | createdFreshService
  deriving DecidableEq, Repr

/-- Python positional-argument binding: more arguments than parameters, or
fewer than the required ones, raise `TypeError` before the function body
runs. -/
def bindPositional (minArgs maxArgs n : Nat) : Except PyErr Unit :=
  if maxArgs < n then .error (.typeError "too many positional arguments")
  else if n < minArgs then .error (.typeError "missing required positional arguments")
  else .ok ()

/-- child.py lines 24-44 (`Child.ask`): construct a fresh `Service` for the
configured backend, then call `service.ask` with 4 positional arguments;
`proceed` stands for whatever the rest of the call (`ask` followed by
`wait_for_answer`) would produce if the call bound. -/
def childAsk (proceed : Except PyErr AnswerDict) : List ChildEvent × Except PyErr AnswerDict :=
  match bindPositional serviceAskParamMin serviceAskParamMax childAskPositionalArgs with
  | .error e => ([.createdFreshService], .error e)
  | .ok _ => ([.createdFreshService], proceed)

/-- An environment in which the single pull returns the terminal message
but the transport acknowledge of it fails. -/
def c2Env : WfaEnv :=
  { pulls := [(.got (some (.success (.str "ok") none)), 1)]
    ackErr := some .serviceUnavailable
    deleteSubErr := none
    deleteTopicErr := none }

/-- Concrete question for the claim C10 witness. -/
def c10Question : IncomingQuestion :=
  { decodedData := some { input_values := .int 1, input_manifest := none }
    attributes := [("question_uuid", "q1")] }

/-! ## Helper lemmas -/

theorem digitChar_isDigit (k : Nat) (h : k < 10) : (digitChar k).isDigit = true := by
  interval_cases k <;> decide

theorem decStrAux_digits (fuel : Nat) : ∀ (n : Nat) (acc : List Char),
    (∀ c ∈ acc, c.isDigit = true) → ∀ c ∈ decStrAux fuel n acc, c.isDigit = true := by
  induction fuel with
  | zero => intro n acc hacc; simpa [decStrAux] using hacc
  | succ fuel ih =>
      intro n acc hacc
      have hd : (digitChar (n % 10)).isDigit = true :=
        digitChar_isDigit _ (Nat.mod_lt _ (by norm_num))
      have hacc2 : ∀ c ∈ digitChar (n % 10) :: acc, c.isDigit = true := by
        intro c hc
        rcases List.mem_cons.mp hc with rfl | hc
        · exact hd
        · exact hacc c hc
      by_cases hn : n < 10
      · simpa [decStrAux, hn] using hacc2
      · simpa [decStrAux, hn] using ih (n / 10) (digitChar (n % 10) :: acc) hacc2

theorem decStr_digits (n : Nat) : ∀ c ∈ decStr n, c.isDigit = true :=
  decStrAux_digits (n + 1) n [] (by intro c hc; cases hc)

theorem isUuidStr_false_of_digits (cs : List Char) (h : ∀ c ∈ cs, c.isDigit = true) :
    isUuidStr cs = false := by
  rcases h36 : (cs.length == 36) with _ | _
  · simp [isUuidStr, h36]
  · have hlen : cs.length = 36 := by simpa using h36
    have h8 : (8 : Nat) < cs.length := by omega
    have hmem : cs.getD 8 ' ' ∈ cs := by
      rw [List.getD_eq_getElem cs ' ' h8]
      exact List.getElem_mem h8
    have hdig : (cs.getD 8 ' ').isDigit = true := h _ hmem
    have hne : (cs.getD 8 ' ' == '-') = false := by
      rcases hc : (cs.getD 8 ' ' == '-') with _ | _
      · rfl
      · exfalso
        have : cs.getD 8 ' ' = '-' := beq_iff_eq.mp hc
        rw [this] at hdig
        exact absurd hdig (by decide)
    have hall : ¬((List.range 36).all (fun i =>
        if i == 8 || i == 13 || i == 18 || i == 23 then cs.getD i ' ' == '-'
        else isHexChar (cs.getD i ' ')) = true) := by
      intro hall
      rw [List.all_eq_true] at hall
      have h8' := hall 8 (by decide)
      simp only [show ((8 == 8 || 8 == 13 || 8 == 18 || 8 == 23) = true) from rfl,
        if_pos rfl] at h8'
      rw [if_pos (by decide)] at h8'
      exact absurd (h8'.symm.trans hne) (by decide)
    simp only [isUuidStr, h36, Bool.true_and]
    exact Bool.not_eq_true _ ▸ Bool.eq_false_iff.mpr (fun hc => hall hc)

/-! ## Claims -/

/-- Claim C1: the spec says `answer` captures every run-function exception
(type name, message, traceback), publishes the terminal error envelope and
never propagates the exception out of the subscriber callback.  The code
builds the message by concatenating `exception.args[0]` onto a string: the
repository's own test input `FileNotFoundError(2, "No such file or
directory: blah")` makes that concatenation raise `TypeError`, an exception
with no arguments makes it raise `IndexError`, and both propagate without
any envelope being published; only exceptions whose first argument is a
string are captured and published. -/
theorem claim_C1 (sid srepr u : String) :
    answer sid srepr u
        (.raises "FileNotFoundError" [.int 2, .str "No such file or directory: blah"] []) =
      ([.invokedRun], some (.typeError "can only concatenate str to str")) ∧
    answer sid srepr u (.raises "ValueError" [] []) = ([.invokedRun], some .indexError) ∧
    ∀ ty s tb, answer sid srepr u (.raises ty [.str s] tb) =
      ([.invokedRun,
        .published (replyTopicName sid u) (.failure ty ("Error in " ++ srepr ++ ": " ++ s) tb)],
       none) :=
  ⟨rfl, rfl, fun _ _ _ => rfl⟩

/-- Claim C3: the spec says a terminal error envelope whose
`exception_type` is not in the registry makes `wait_for_answer` raise a
generic runtime error still carrying the remote message and traceback.
The code performs a bare dict lookup `EXCEPTIONS_MAPPING[exception_type]`,
so an unknown name raises `KeyError` carrying only the type name, while a
known name is reconstructed and raised with the message and traceback. -/
theorem claim_C3 (msg : String) (tb : List String) :
    processTerminalMessage (.failure "AnUnknownException" msg tb) =
      .error (.keyError "AnUnknownException") ∧
    processTerminalMessage (.failure "ValueError" msg tb) =
      .error (.remote "ValueError" msg tb) :=
  ⟨rfl, rfl⟩

/-- Claim C6: the spec says the server publishes a `delivery_ack`
intermediate message after constructing the reply topic and before invoking
the run function.  The code publishes no delivery acknowledgement at all:
no invocation of `answer` ever publishes a `deliveryAck` payload, and on
the happy path the run invocation is the first event, followed only by the
terminal result envelope. -/
theorem claim_C6 (sid srepr u : String) (run : RunResult) :
    (answer sid srepr u run).1.filter isDeliveryAckPublish = [] ∧
    ∀ ov om, (answer sid srepr u (.ok ov om)).1 =
      [.invokedRun, .published (replyTopicName sid u) (.success ov om)] := by
  constructor
  · cases run with
    | ok ov om => rfl
    | raises ty args tb =>
        cases args with
        | nil => rfl
        | cons a rest => cases a <;> rfl
  · intro ov om; rfl

/-- Claim C9: the spec says `Child.ask` constructs a fresh Service Core,
asks the question and returns whatever `wait_for_answer` returns.  The code
constructs the fresh service but then calls `Service.ask` with four
positional arguments (`self.id, input_values, input_manifest,
subscribe_to_logs`) while `Service.ask` accepts at most three, so every
call raises `TypeError` before any question is asked, whatever the rest of
the call would have returned. -/
theorem claim_C9 (proceed : Except PyErr AnswerDict) :
    childAsk proceed =
      ([.createdFreshService], .error (.typeError "too many positional arguments")) :=
  rfl

/-- Claim C2, counterexample: when the acknowledge of the received message
raises a transport error inside the `finally` block, that error escapes the
block and both deletion statements are skipped, so `wait_for_answer` raises
with neither the reply subscription nor the reply topic deleted. -/
theorem claim_C2_counterexample :
    (wait_for_answer c2Env 30).2 = .raised (.transport .serviceUnavailable) ∧
    WfaEvent.deletedSubscription ∉ (wait_for_answer c2Env 30).1 ∧
    WfaEvent.deletedTopic ∉ (wait_for_answer c2Env 30).1 := by
  decide

/-- Claim C2 (amended): on every exit path of `wait_for_answer` on which
the transport acknowledge and the two delete calls themselves succeed -
normal return, raised remote exception, raised timeout error, or a pull
error - the reply subscription and its reply topic are both deleted before
the call returns or the exception escapes. -/
theorem claim_C2 (env : WfaEnv) (timeout : Rat)
    (hack : env.ackErr = none) (hds : env.deleteSubErr = none)
    (hdt : env.deleteTopicErr = none)
    (hres : (wait_for_answer env timeout).2 ≠ .fuelOut) :
    WfaEvent.deletedSubscription ∈ (wait_for_answer env timeout).1 ∧
    WfaEvent.deletedTopic ∈ (wait_for_answer env timeout).1 := by
  have hfinT : wfaFinally env true = ([.acked, .deletedSubscription, .deletedTopic], none) := by
    simp [wfaFinally, hack, hds, hdt]
  have hfinF : wfaFinally env false = ([.deletedSubscription, .deletedTopic], none) := by
    simp [wfaFinally, hds, hdt]
  unfold wait_for_answer at hres ⊢
  cases hloop : wfaLoop timeout env.pulls with
  | fuelOut => rw [hloop] at hres; exact absurd rfl hres
  | gotAnswer a =>
      rcases hterm : processTerminalMessage a with d | e <;> simp [hfinT, hterm]
  | pendingErr pe =>
      simp [hfinF]

/-- Witness for claim C2 at a concrete timed-out environment. -/
theorem claim_C2_witness :
    WfaEvent.deletedSubscription ∈ (wait_for_answer (noMessageEnv [5]) 1).1 ∧
    WfaEvent.deletedTopic ∈ (wait_for_answer (noMessageEnv [5]) 1).1 :=
  claim_C2 (noMessageEnv [5]) 1 rfl rfl rfl (by decide)

theorem wfaLoop_noMessage (timeout : Rat) (times : List Rat) :
    wfaLoop timeout (times.map (fun t => (PullRes.got none, t))) =
      match times.find? (fun t => decide (timeout < t)) with
      | some t => .pendingErr (.timeoutError t)
      | none => .fuelOut := by
  induction times with
  | nil => rfl
  | cons t rest ih =>
      by_cases h : timeout < t
      · simp [wfaLoop, List.find?, h]
      · simp [wfaLoop, List.find?, h, ih]

theorem wfa_noMessage (timeout : Rat) (times : List Rat) :
    wait_for_answer (noMessageEnv times) timeout =
      match times.find? (fun t => decide (timeout < t)) with
      | some t => ([.deletedSubscription, .deletedTopic], .raised (.timeoutError t))
      | none => ([], .fuelOut) := by
  unfold wait_for_answer
  have hp : (noMessageEnv times).pulls = times.map (fun t => (PullRes.got none, t)) := rfl
  rw [hp, wfaLoop_noMessage]
  cases h : times.find? (fun t => decide (timeout < t)) with
  | none => rfl
  | some t => rfl

/-- Claim C4: in a `wait_for_answer` call during which no message ever
arrives, a timeout error is raised as soon as an empty pull completes with
elapsed wall-clock time strictly exceeding `timeout`, and a timeout error
is never raised while the elapsed time is still within the budget. -/
theorem claim_C4 (times : List Rat) (timeout : Rat) :
    (∀ t, (wait_for_answer (noMessageEnv times) timeout).2 = .raised (.timeoutError t) →
      timeout < t) ∧
    ((∃ t ∈ times, timeout < t) →
      ∃ t, timeout < t ∧
        (wait_for_answer (noMessageEnv times) timeout).2 = .raised (.timeoutError t)) := by
  constructor
  · intro t ht
    rw [wfa_noMessage] at ht
    cases hf : times.find? (fun t => decide (timeout < t)) with
    | none => rw [hf] at ht; exact absurd ht (by simp)
    | some t0 =>
        rw [hf] at ht
        have ht' : WfaResult.raised (PyErr.timeoutError t0) =
            WfaResult.raised (PyErr.timeoutError t) := ht
        have h0 := List.find?_some hf
        have ht0 : t0 = t := by
          injection ht' with h1
          injection h1 with h2
        rw [← ht0]
        exact of_decide_eq_true (by simpa using h0)
  · intro ⟨t, htm, hlt⟩
    have hs : (times.find? (fun t => decide (timeout < t))).isSome := by
      rw [List.find?_isSome]
      exact ⟨t, htm, by simpa using hlt⟩
    cases hf : times.find? (fun t => decide (timeout < t)) with
    | none => rw [hf] at hs; simp at hs
    | some t0 =>
        have h0 := List.find?_some hf
        refine ⟨t0, of_decide_eq_true (by simpa using h0), ?_⟩
        rw [wfa_noMessage, hf]

/-- Witness for claim C4: one empty pull at elapsed time 2 against a budget
of 1 raises the timeout error. -/
theorem claim_C4_witness :
    ∃ t, (1 : Rat) < t ∧
      (wait_for_answer (noMessageEnv [2]) 1).2 = .raised (.timeoutError t) :=
  (claim_C4 [2] 1).2 ⟨2, by simp, by norm_num⟩

/-- Claim C5: the retry policy built for a given deadline caps every
per-attempt backoff sleep at `deadline / 4`; its predicate retries exactly
the eight transient error classes (not-found, aborted, deadline-exceeded,
internal, resource-exhausted, unavailable, unknown, cancelled); a
non-transient error surfaces immediately with no additional waiting; the
loop gives up only once the cumulative wait has reached the deadline, and
below the deadline a transient error leads to one more capped exponential
backoff sleep and another attempt. -/
theorem claim_C5 (t : Rat) :
    (create_custom_retry t).maximum = t / 4 ∧
    (∀ n, (create_custom_retry t).sleepAt n ≤ t / 4) ∧
    (∀ e, (create_custom_retry t).predicate e = true ↔ e ∈ transientErrors) ∧
    (∀ n cum e rest, (create_custom_retry t).predicate e = false →
      retryLoop (create_custom_retry t) n cum (some e :: rest) = .fatal e cum) ∧
    (∀ n cum attempts e cumF,
      retryLoop (create_custom_retry t) n cum attempts = .gaveUp e cumF → t ≤ cumF) ∧
    (∀ n cum e rest, (create_custom_retry t).predicate e = true → cum < t →
      retryLoop (create_custom_retry t) n cum (some e :: rest) =
        retryLoop (create_custom_retry t) (n + 1)
          (cum + (create_custom_retry t).sleepAt n) rest) := by
  refine ⟨rfl, fun n => min_le_right _ _, ?_, ?_, ?_, ?_⟩
  · intro e
    show transientErrors.contains e = true ↔ e ∈ transientErrors
    cases e <;> simp [transientErrors]
  · intro n cum e rest hp
    simp [retryLoop, hp]
  · intro n cum attempts
    induction attempts generalizing n cum with
    | nil => intro e cumF h; exact absurd h (by simp [retryLoop])
    | cons a rest ih =>
        intro e cumF h
        cases a with
        | none => exact absurd h (by simp [retryLoop])
        | some e0 =>
            rw [retryLoop] at h
            by_cases hp : (create_custom_retry t).predicate e0 = false
            · rw [if_pos hp] at h
              exact absurd h (by simp)
            · rw [if_neg hp] at h
              by_cases hd : (create_custom_retry t).deadline ≤ cum
              · rw [if_pos hd] at h
                injection h with h1 h2
                exact h2 ▸ hd
              · rw [if_neg hd] at h
                exact ih _ _ e cumF h
  · intro n cum e rest hp hcum
    rw [retryLoop, if_neg (by simp [hp]), if_neg (by exact not_le.mpr hcum)]

/-- Witness for claim C5: with deadline 8, a permission-denied error is not
retried and surfaces immediately, and the first backoff sleep is within the
`deadline / 4` cap. -/
theorem claim_C5_witness :
    retryLoop (create_custom_retry 8) 0 0 [some .permissionDenied] =
      .fatal .permissionDenied 0 ∧
    (create_custom_retry 8).sleepAt 0 ≤ 8 / 4 :=
  ⟨(claim_C5 8).2.2.2.1 0 0 .permissionDenied [] (by decide), (claim_C5 8).2.1 0⟩

/-- Claim C7, counterexample: at the concrete fresh uuid4 value
`2 ^ 122 + 3`, the correlation id `str(int(uuid.uuid4()))` published by
`ask` is not a canonical UUID string. -/
theorem claim_C7_counterexample :
    isUuidStr (askQuestionUuid (2 ^ 122 + 3)) = false := by
  decide

/-- Claim C7 (amended): for every question published by `ask`, the
`question_uuid` carried as a message attribute (and embedded in the
reply-channel name) is the decimal string of the uuid4 value's 128-bit
integer - it consists only of decimal digits and is never a canonical
hyphenated UUID string. -/
theorem claim_C7 (u : Nat) :
    (∀ c ∈ askQuestionUuid u, c.isDigit = true) ∧
    isUuidStr (askQuestionUuid u) = false := by
  refine ⟨decStr_digits u, isUuidStr_false_of_digits _ (decStr_digits u)⟩

/-- Witness for claim C7 at the concrete fresh uuid4 value 1: the
correlation id is the digit string "1", not a canonical UUID string. -/
theorem claim_C7_witness :
    Char.isDigit '1' = true ∧ isUuidStr (askQuestionUuid 1) = false :=
  ⟨(claim_C7 1).1 '1' (by decide), (claim_C7 1).2⟩

/-- Claim C8: the spec says construction with a null id generates a UUIDv4,
an empty or non-string id fails with an invalid-argument error, and
otherwise the reserved namespace is prepended unless present.  The code
generates the UUIDv4 for a null id and rejects falsy ids, but it stores any
truthy id verbatim: `"hello"` stays `"hello"` (the repository's own test
expects `"octue.services.hello"`) and the non-string id `5` is accepted
rather than rejected. -/
theorem claim_C8 :
    serviceInit 0 (some (.str "hello")) = .ok (.str "hello") ∧
    PyVal.str "hello" ≠ PyVal.str "octue.services.hello" ∧
    serviceInit 0 (some (.int 5)) = .ok (.int 5) ∧
    serviceInit 0 (some (.str "")) =
      .error (.valueError "service_id should be None or a non-falsey value") ∧
    serviceInit 7 none = .ok (.str (uuidCanonical 7)) ∧
    uuidCanonical 7 = "00000000-0000-0000-0000-000000000007" := by
  refine ⟨rfl, by decide, rfl, rfl, rfl, rfl⟩

/-- Claim C10: in the serving callback, the transport acknowledgement is
issued exactly once, after the payload is decoded and the `question_uuid`
attribute is read and before the run function is invoked; every event after
the acknowledgement belongs to `answer` (so a run-function failure cannot
prevent it), while an undecodable payload or a missing `question_uuid`
attribute leaves the question unacknowledged. -/
theorem claim_C10 (sid srepr : String) (q : IncomingQuestion) (run : RunResult) :
    (∀ d u, q.decodedData = some d → attrLookup q.attributes "question_uuid" = some u →
      ∃ rest, (receive_question_then_answer sid srepr q run).1 =
          CallbackEvent.decodedPayload :: CallbackEvent.readQuestionUuid u ::
            CallbackEvent.acked :: rest ∧
        CallbackEvent.acked ∉ rest ∧
        ∀ e ∈ rest, ∃ ae, e = CallbackEvent.fromAnswer ae) ∧
    (q.decodedData = none →
      (receive_question_then_answer sid srepr q run).1.count CallbackEvent.acked = 0) ∧
    (attrLookup q.attributes "question_uuid" = none →
      (receive_question_then_answer sid srepr q run).1.count CallbackEvent.acked = 0) := by
  refine ⟨?_, ?_, ?_⟩
  · intro d u hd hu
    refine ⟨(answer sid srepr u run).1.map .fromAnswer, ?_, ?_, ?_⟩
    · simp [receive_question_then_answer, hd, hu]
    · simp [List.mem_map]
    · intro e he
      rw [List.mem_map] at he
      obtain ⟨ae, _, rfl⟩ := he
      exact ⟨ae, rfl⟩
  · intro hd
    simp [receive_question_then_answer, hd]
  · intro hu
    cases hq : q.decodedData with
    | none => simp [receive_question_then_answer, hq]
    | some d => simp [receive_question_then_answer, hq, hu, List.count_cons]

/-- Witness for claim C10 at a concrete well-formed question whose run
function raises. -/
theorem claim_C10_witness :
    ∃ rest,
      (receive_question_then_answer "octue.services.s" "<Service>" c10Question
          (.raises "ValueError" [] [])).1 =
        CallbackEvent.decodedPayload :: CallbackEvent.readQuestionUuid "q1" ::
          CallbackEvent.acked :: rest ∧
      CallbackEvent.acked ∉ rest ∧
      ∀ e ∈ rest, ∃ ae, e = CallbackEvent.fromAnswer ae :=
  (claim_C10 "octue.services.s" "<Service>" c10Question (.raises "ValueError" [] [])).1
    { input_values := .int 1, input_manifest := none } "q1" rfl rfl

end Octue
